import Mathlib

/-!
Verification development for the Automotive-Service-Station dashboard.

The definitions below are a shallow embedding of the front-end logic in
src/src/App.tsx (cost aggregation) and src/src/components/LiveFeed.tsx
(video-source selection, per-station capture slots, the auto-capture
sequencer and the remote-feed polling loop).  JavaScript numbers are
modelled as rationals, nullable / optional values as Option, and the
stateful component as an explicit state record with a step function over
UI and network events.
-/

namespace AutoService

/-- The four inspection stations, type Block in LiveFeed.tsx. -/
inductive Block
  | front
  | left
  | right
  | brake
deriving DecidableEq

/-- blocksList from LiveFeed.tsx line 461: the fixed station order. -/
def blocksList : List Block := [Block.front, Block.left, Block.right, Block.brake]

/-- blockIds from LiveFeed.tsx line 462. -/
def blockIds : Block → Nat
  | Block.front => 0
  | Block.left => 1
  | Block.right => 2
  | Block.brake => 3

/-- The derived brake status strings Good / Bad. -/
inductive BrakeStatus
  | good
  | bad
deriving DecidableEq

/-! ### App.tsx: feed analysis state and cost aggregation -/

/-- One entry of the feedAnalysis state in App.tsx lines 35-40.
All numeric fields are plain numbers there (initialised to 0). -/
structure FeedEntry where
  scratches : ℚ := 0
  dents : ℚ := 0
  cracks : ℚ := 0
  imageUrl : String := ""
  beforeImage : String := ""
  annotatedImage : String := ""
  annotatedImageUrl : String := ""
  brakeStatus : Option BrakeStatus := Option.none
deriving DecidableEq

/-- The feedAnalysis record of App.tsx, one entry per station. -/
structure FeedAnalysis where
  front : FeedEntry := {}
  left : FeedEntry := {}
  right : FeedEntry := {}
  brake : FeedEntry := {}
deriving DecidableEq

def FeedAnalysis.get (fa : FeedAnalysis) : Block → FeedEntry
  | Block.front => fa.front
  | Block.left => fa.left
  | Block.right => fa.right
  | Block.brake => fa.brake

def FeedAnalysis.set (fa : FeedAnalysis) (b : Block) (e : FeedEntry) : FeedAnalysis :=
  match b with
  | Block.front => { fa with front := e }
  | Block.left => { fa with left := e }
  | Block.right => { fa with right := e }
  | Block.brake => { fa with brake := e }

/-- updateTotalCost from App.tsx lines 43-57.  The stored entries are
non-nullable numbers, so the defensive fallbacks in the source never
change a value; the formula is the literal sum written there. -/
def updateTotalCost (fa : FeedAnalysis) (brake_wear_rate : ℚ) : ℚ :=
  fa.front.scratches * 300 + fa.front.dents * 500 +
  fa.left.scratches * 300 + fa.left.dents * 500 +
  fa.right.scratches * 300 + fa.right.dents * 500 +
  fa.brake.scratches * 300 + fa.brake.dents * 500 +
  brake_wear_rate * 20 + 500

/-- The untyped result argument of handleAnalysisComplete in App.tsx:
every field may be absent. -/
structure IncomingResult where
  scratches : Option ℚ := Option.none
  dents : Option ℚ := Option.none
  cracks : Option ℚ := Option.none
  imageUrl : Option String := Option.none
  beforeImage : Option String := Option.none
  annotatedImage : Option String := Option.none
  annotatedImageUrl : Option String := Option.none
  brakeStatus : Option BrakeStatus := Option.none
deriving DecidableEq

/-- The per-field defaulting performed by handleAnalysisComplete in
App.tsx lines 69-76: each absent field is replaced by 0 or the empty
string. -/
def applyIncoming (r : IncomingResult) : FeedEntry :=
  { scratches := r.scratches.getD 0
    dents := r.dents.getD 0
    cracks := r.cracks.getD 0
    imageUrl := r.imageUrl.getD ""
    beforeImage := r.beforeImage.getD ""
    annotatedImage := r.annotatedImage.getD ""
    annotatedImageUrl := r.annotatedImageUrl.getD ""
    brakeStatus := r.brakeStatus }

/-- handleAnalysisComplete from App.tsx lines 65-88: store the incoming
result (with defaults applied) into the named station's entry and
recompute the total cost from the updated analysis state.  Returns the
new analysis state together with the recomputed total. -/
def handleAnalysisComplete (fa : FeedAnalysis) (b : Block) (r : IncomingResult)
    (brake_wear_rate : ℚ) : FeedAnalysis × ℚ :=
  let updated := fa.set b (applyIncoming r)
  (updated, updateTotalCost updated brake_wear_rate)

/-- An incoming result with its count fields forced to be present,
absent counts replaced by an explicit 0. -/
def zeroFilled (r : IncomingResult) : IncomingResult :=
  { r with
    scratches := some (r.scratches.getD 0)
    dents := some (r.dents.getD 0)
    cracks := some (r.cracks.getD 0) }

/-- The concrete example of the spec: front 2 scratches and 1 dent,
right 1 scratch, the other stations clean. -/
def exampleFeed : FeedAnalysis :=
  { front := { scratches := 2, dents := 1 }
    left := {}
    right := { scratches := 1, dents := 0 }
    brake := {} }

/-! ### Claims about the cost aggregation -/

/-- Claim C1: for every assignment of the four stations' results and
every brake wear rate, updateTotalCost returns exactly the sum over the
four stations of scratches times 300 plus dents times 500, plus the
brake wear rate times 20, plus a flat 500; and on the spec's concrete
example (front 2 scratches 1 dent, right 1 scratch, brake wear rate
45.5) the total is 2810. -/
theorem updateTotalCost_is_station_sum :
    (∀ (fa : FeedAnalysis) (bwr : ℚ),
      updateTotalCost fa bwr
        = (blocksList.map
            (fun b => (fa.get b).scratches * 300 + (fa.get b).dents * 500)).sum
          + bwr * 20 + 500) ∧
    updateTotalCost exampleFeed (45.5 : ℚ) = 2810 := by
  constructor
  · intro fa bwr
    simp [updateTotalCost, blocksList, FeedAnalysis.get]
    ring
  · norm_num [updateTotalCost, exampleFeed]

/-- Claim C10: for every analysis result delivered to the cost
aggregator, absent scratch or dent counts are treated as zero: feeding
the raw result and feeding the result with absent counts replaced by an
explicit 0 produce identical updated state and identical recomputed
total, and the recomputed total is exactly the aggregate of the updated
state (a defined rational number for any shape of incoming result). -/
theorem handleAnalysisComplete_absent_counts_zero
    (fa : FeedAnalysis) (b : Block) (r : IncomingResult) (bwr : ℚ) :
    handleAnalysisComplete fa b r bwr = handleAnalysisComplete fa b (zeroFilled r) bwr ∧
    (applyIncoming r).scratches = r.scratches.getD 0 ∧
    (applyIncoming r).dents = r.dents.getD 0 ∧
    (handleAnalysisComplete fa b r bwr).2
      = updateTotalCost (fa.set b (applyIncoming r)) bwr := by
  refine ⟨?_, rfl, rfl, rfl⟩
  have h : applyIncoming (zeroFilled r) = applyIncoming r := by
    cases hs : r.scratches <;> cases hd : r.dents <;> cases hc : r.cracks <;>
      simp [applyIncoming, zeroFilled, hs, hd, hc]
  simp [handleAnalysisComplete, h]

/-! ### LiveFeed.tsx: data model -/

/-- The video source selector value, LiveFeed.tsx line 59.  The UI
dropdown (lines 680-688) only ever selects none, pi or webcam; rpi
exists in the type but is never offered. -/
inductive VideoSource
  | pi
  | webcam
  | rpi
  | none
deriving DecidableEq

/-- The per-slot AnalysisResult interface, LiveFeed.tsx lines 28-37
(every field optional; the image URL fields are not stored in the slot
state so only the count and status fields are modelled). -/
structure AnalysisResult where
  scratches : Option ℚ := Option.none
  dents : Option ℚ := Option.none
  cracks : Option ℚ := Option.none
  brakeStatus : Option BrakeStatus := Option.none
deriving DecidableEq

/-- BlockState, LiveFeed.tsx lines 41-46: one capture slot. -/
structure BlockState where
  beforeImage : Option String := Option.none
  afterImage : Option String := Option.none
  loading : Bool := false
  analysisResult : AnalysisResult := {}
deriving DecidableEq

/-- The slot value a station starts with and is reset back to
(LiveFeed.tsx lines 464-469 and 584-589). -/
def emptyBlockState : BlockState := {}

/-- The JSON body returned by the analyze-image endpoint as read by the
handlers: every field may be absent. -/
structure AnalyzeResponse where
  annotatedImage : Option String := Option.none
  scratchCount : Option ℚ := Option.none
  dentCount : Option ℚ := Option.none
  crackCount : Option ℚ := Option.none
deriving DecidableEq

/-- Outcome of one analyzeImageFile call: failure covers a network
error or a non-2xx response (analyzeImageFile throws, line 23);
success carries the parsed JSON body. -/
inductive AnalyzeOutcome
  | failure
  | success (r : AnalyzeResponse)
deriving DecidableEq

/-- JavaScript string interpolation of a possibly-undefined value:
an absent value prints as the string undefined. -/
def jsStr : Option String → String
  | Option.none => "undefined"
  | some s => s

/-- JavaScript falsiness of a nullable string: absent or empty. -/
def strFalsy : Option String → Bool
  | Option.none => true
  | some s => s.isEmpty

/-- The annotated data URL built at LiveFeed.tsx lines 551 and 1102. -/
def annotatedUrl (r : AnalyzeResponse) : String :=
  "data:image/jpeg;base64," ++ jsStr r.annotatedImage

/-- hasDefects, LiveFeed.tsx lines 552 and 1103: the sum of the three
counts compared with 0.  If any count is absent the JavaScript sum is
NaN and the comparison is false. -/
def hasDefects (r : AnalyzeResponse) : Bool :=
  match r.scratchCount, r.dentCount, r.crackCount with
  | some s, some d, some c => decide (0 < s + d + c)
  | _, _, _ => false

/-- The analysisResult stored on a successful analysis,
LiveFeed.tsx lines 558-563. -/
def successResult (r : AnalyzeResponse) : AnalysisResult :=
  { scratches := r.scratchCount
    dents := r.dentCount
    cracks := r.crackCount
    brakeStatus := some (if hasDefects r then BrakeStatus.bad else BrakeStatus.good) }

/-- The synchronous slot update at the start of a capture or upload
(LiveFeed.tsx lines 544 and 1091): mark busy and store the source
image. -/
def captureStartBlock (img : String) (st : BlockState) : BlockState :=
  { st with loading := true, beforeImage := some img }

/-- The slot update when a captureFromFeed analysis settles
(LiveFeed.tsx lines 546-581): on success the annotated URL and counts
are stored unconditionally - a missing annotatedImage is NOT detected;
on failure only the busy flag is cleared. -/
def captureCompleteBlock (o : AnalyzeOutcome) (st : BlockState) : BlockState :=
  match o with
  | AnalyzeOutcome.failure => { st with loading := false }
  | AnalyzeOutcome.success r =>
      { st with
        loading := false
        afterImage := some (annotatedUrl r)
        analysisResult := successResult r }

/-- The slot update when an upload analysis settles (LiveFeed.tsx
lines 1092-1131): a falsy annotatedImage is thrown as an error and
handled like any failure, clearing only the busy flag. -/
def uploadCompleteBlock (o : AnalyzeOutcome) (st : BlockState) : BlockState :=
  match o with
  | AnalyzeOutcome.failure => { st with loading := false }
  | AnalyzeOutcome.success r =>
      if strFalsy r.annotatedImage then { st with loading := false }
      else
        { st with
          loading := false
          afterImage := some (annotatedUrl r)
          analysisResult := successResult r }

/-- One entry of stationConnectionStatus, LiveFeed.tsx lines 141-149. -/
structure ConnState where
  connected : Bool := false
  lastUpdate : Option ℚ := Option.none
deriving DecidableEq

/-- The connection-status recomputation of one poll tick, LiveFeed.tsx
lines 410-429: every station starts this tick as disconnected and is
marked connected exactly when its fetched timestamp is truthy and less
than 3 seconds old. -/
def connStatusOf (currentTime : ℚ) (timestamps : Block → Option ℚ) (b : Block) :
    ConnState :=
  match timestamps b with
  | Option.none => {}
  | some t =>
      if t ≠ 0 ∧ currentTime - t < 3 then
        { connected := true, lastUpdate := some t }
      else {}

/-- The per-station result of one poll tick's station-feed fetch,
LiveFeed.tsx lines 388-400: either no frame (fetch failed or the body
had no annotatedImage, in which case the timestamp is also dropped) or
a base64 frame together with its optional timestamp. -/
def pollTimestamps (poll : Block → Option (String × Option ℚ)) :
    Block → Option ℚ :=
  fun b => Option.bind (poll b) Prod.snd

/-- The whole mutable state of the LiveFeed component, together with
three ghost fields (outCap, outUp, autoCaptureCalls) that count
in-flight analysis requests and record which stations the auto-capture
timer has invoked captureFromFeed on. -/
structure SysState where
  videoSource : VideoSource := VideoSource.none
  blocks : Block → BlockState := fun _ => {}
  stationStreams : Block → Bool := fun _ => false
  rpiSelected : Block → Bool := fun _ => false
  stationPiFeeds : Block → Option String := fun _ => Option.none
  connStatus : Block → ConnState := fun _ => {}
  piImage : Option String := Option.none
  piRawImage : Option String := Option.none
  autoCapturing : Bool := false
  currentAutoStation : Option Block := Option.none
  timerActive : Bool := false
  currentIndex : Nat := 0
  outCap : Block → Nat := fun _ => 0
  outUp : Block → Nat := fun _ => 0
  autoCaptureCalls : List Block := []

/-- The initial component state: no source, four empty slots. -/
def initState : SysState := {}

/-- isLive for one station, LiveFeed.tsx line 892. -/
def isLive (s : SysState) (b : Block) : Bool :=
  match s.videoSource with
  | VideoSource.pi => true
  | VideoSource.webcam => s.stationStreams b
  | VideoSource.rpi => s.rpiSelected b
  | VideoSource.none => false

/-- The source-image lookup at the head of captureFromFeed
(LiveFeed.tsx lines 475-542).  In pi mode the station frame falls back
to the shared raw image and then the shared annotated image (line 478).
In webcam and rpi mode the frame comes from the environment (the live
stream rasterisation or the snapshot fetch), and is only available when
a stream or a camera selection exists; the webcam branch is also taken
when no source is selected, where no stream exists. -/
def trySourceImage (s : SysState) (b : Block) (env : Option String) : Option String :=
  match s.videoSource with
  | VideoSource.pi =>
      ((s.stationPiFeeds b).orElse (fun _ => s.piRawImage)).orElse (fun _ => s.piImage)
  | VideoSource.rpi => if s.rpiSelected b then env else Option.none
  | VideoSource.webcam => if s.stationStreams b then env else Option.none
  | VideoSource.none => if s.stationStreams b then env else Option.none

/-- The synchronous part of captureFromFeed (LiveFeed.tsx lines
471-549): obtain a source image for the station, and if one exists mark
the slot busy, store it as beforeImage and issue the analysis request
(counted in the outCap ghost).  No busy check is performed.  If no
image is available the function alerts and returns without touching the
slot. -/
def captureFromFeed (s : SysState) (b : Block) (env : Option String) : SysState :=
  match trySourceImage s b env with
  | Option.none => s
  | some img =>
      { s with
        blocks := Function.update s.blocks b (captureStartBlock img (s.blocks b))
        outCap := Function.update s.outCap b (s.outCap b + 1) }

/-- stationOrder, LiveFeed.tsx line 600. -/
def stationOrder : List Block := [Block.front, Block.left, Block.right, Block.brake]

/-- The station captured at a given timer index. -/
def stationAt (i : Nat) : Block := stationOrder.getD i Block.front

/-- The UI and network events the component reacts to. -/
inductive Event
  | selectSource (v : VideoSource)
  | clearButton
  | webcamReady (b : Block)
  | piPoll (poll : Block → Option (String × Option ℚ))
      (legacyAnnotated : Option String) (legacyClean : Option String)
      (currentTime : ℚ)
  | clickCapture (b : Block) (env : Option String)
  | autoStart
  | autoTick (env : Block → Option String)
  | captureResponse (b : Block) (o : AnalyzeOutcome)
  | clickUpload (b : Block) (img : String)
  | uploadResponse (b : Block) (o : AnalyzeOutcome)
  | reset (b : Block)

/-- The event-step function of the component.  Guards reproduce the
source: the dropdown offers only none, pi and webcam; the clear button
and the auto-capture button are rendered only while a source is
selected; the capture button is rendered only while the slot has no
afterImage and is disabled only when the station is not live (never on
the busy flag); completions only fire while a request is in flight. -/
def step (s : SysState) (e : Event) : SysState :=
  match e with
  | Event.selectSource v =>
      if v = VideoSource.rpi then s
      else
        let s1 := { s with videoSource := v, stationStreams := fun _ => false }
        if v = VideoSource.none ∧ s.timerActive = true then
          { s1 with
            timerActive := false
            autoCapturing := false
            currentAutoStation := Option.none }
        else s1
  | Event.clearButton =>
      if s.videoSource = VideoSource.none then s
      else
        { s with
          timerActive := false
          autoCapturing := false
          currentAutoStation := Option.none
          videoSource := VideoSource.none
          piImage := Option.none
          piRawImage := Option.none
          stationStreams := fun _ => false }
  | Event.webcamReady b =>
      if s.videoSource = VideoSource.webcam then
        { s with stationStreams := Function.update s.stationStreams b true }
      else s
  | Event.piPoll poll la lc cur =>
      if s.videoSource = VideoSource.pi then
        { s with
          stationPiFeeds := fun b =>
            Option.map (fun p => "data:image/jpeg;base64," ++ p.1) (poll b)
          connStatus := connStatusOf cur (pollTimestamps poll)
          piImage := match la with
            | some a => some ("data:image/jpeg;base64," ++ a)
            | Option.none => s.piImage
          piRawImage := match la, lc with
            | some _, some c => some ("data:image/jpeg;base64," ++ c)
            | _, _ => s.piRawImage }
      else s
  | Event.clickCapture b env =>
      if (s.blocks b).afterImage = Option.none ∧ isLive s b = true then
        captureFromFeed s b env
      else s
  | Event.autoStart =>
      if s.videoSource = VideoSource.none ∨ s.autoCapturing = true then s
      else
        { s with
          autoCapturing := true
          currentAutoStation := some Block.front
          timerActive := true
          currentIndex := 0 }
  | Event.autoTick env =>
      if s.timerActive = true then
        if s.currentIndex < 4 then
          let st := stationAt s.currentIndex
          let s1 := { s with
            currentAutoStation := some st
            autoCaptureCalls := s.autoCaptureCalls ++ [st] }
          let s2 := captureFromFeed s1 st (env st)
          { s2 with currentIndex := s.currentIndex + 1 }
        else
          { s with
            timerActive := false
            autoCapturing := false
            currentAutoStation := Option.none }
      else s
  | Event.captureResponse b o =>
      if 0 < s.outCap b then
        { s with
          blocks := Function.update s.blocks b (captureCompleteBlock o (s.blocks b))
          outCap := Function.update s.outCap b (s.outCap b - 1) }
      else s
  | Event.clickUpload b img =>
      if (s.blocks b).afterImage = Option.none then
        { s with
          blocks := Function.update s.blocks b (captureStartBlock img (s.blocks b))
          outUp := Function.update s.outUp b (s.outUp b + 1) }
      else s
  | Event.uploadResponse b o =>
      if 0 < s.outUp b then
        { s with
          blocks := Function.update s.blocks b (uploadCompleteBlock o (s.blocks b))
          outUp := Function.update s.outUp b (s.outUp b - 1) }
      else s
  | Event.reset b =>
      { s with blocks := Function.update s.blocks b emptyBlockState }

/-- Run a trace of events from the initial state. -/
def runTrace (es : List Event) : SysState := es.foldl step initState

/-- A state is reachable when some event trace produces it. -/
def Reachable (s : SysState) : Prop := ∃ es : List Event, runTrace es = s

/-! ### Helper lemmas about captureFromFeed and the sequencer -/

theorem captureFromFeed_timerActive (s : SysState) (b : Block) (env : Option String) :
    (captureFromFeed s b env).timerActive = s.timerActive := by
  cases h : trySourceImage s b env <;> simp [captureFromFeed, h]

theorem captureFromFeed_autoCapturing (s : SysState) (b : Block) (env : Option String) :
    (captureFromFeed s b env).autoCapturing = s.autoCapturing := by
  cases h : trySourceImage s b env <;> simp [captureFromFeed, h]

theorem captureFromFeed_currentIndex (s : SysState) (b : Block) (env : Option String) :
    (captureFromFeed s b env).currentIndex = s.currentIndex := by
  cases h : trySourceImage s b env <;> simp [captureFromFeed, h]

theorem captureFromFeed_currentAutoStation (s : SysState) (b : Block) (env : Option String) :
    (captureFromFeed s b env).currentAutoStation = s.currentAutoStation := by
  cases h : trySourceImage s b env <;> simp [captureFromFeed, h]

theorem captureFromFeed_autoCaptureCalls (s : SysState) (b : Block) (env : Option String) :
    (captureFromFeed s b env).autoCaptureCalls = s.autoCaptureCalls := by
  cases h : trySourceImage s b env <;> simp [captureFromFeed, h]

theorem captureFromFeed_videoSource (s : SysState) (b : Block) (env : Option String) :
    (captureFromFeed s b env).videoSource = s.videoSource := by
  cases h : trySourceImage s b env <;> simp [captureFromFeed, h]

theorem autoTick_capture (s : SysState) (env : Block → Option String)
    (h : s.timerActive = true) (h2 : s.currentIndex < 4) :
    (step s (Event.autoTick env)).autoCaptureCalls
      = s.autoCaptureCalls ++ [stationAt s.currentIndex] ∧
    (step s (Event.autoTick env)).currentIndex = s.currentIndex + 1 ∧
    (step s (Event.autoTick env)).timerActive = true ∧
    (step s (Event.autoTick env)).autoCapturing = s.autoCapturing ∧
    (step s (Event.autoTick env)).currentAutoStation = some (stationAt s.currentIndex) ∧
    (step s (Event.autoTick env)).videoSource = s.videoSource := by
  simp [step, h, h2, captureFromFeed_timerActive, captureFromFeed_autoCapturing,
    captureFromFeed_currentIndex, captureFromFeed_currentAutoStation,
    captureFromFeed_autoCaptureCalls, captureFromFeed_videoSource]

theorem autoTick_finish (s : SysState) (env : Block → Option String)
    (h : s.timerActive = true) (h2 : ¬ s.currentIndex < 4) :
    step s (Event.autoTick env)
      = { s with
          timerActive := false
          autoCapturing := false
          currentAutoStation := Option.none } := by
  simp [step, h, h2]

theorem autoStart_accepted (s0 : SysState)
    (h1 : s0.videoSource ≠ VideoSource.none) (h2 : s0.autoCapturing = false) :
    step s0 Event.autoStart
      = { s0 with
          autoCapturing := true
          currentAutoStation := some Block.front
          timerActive := true
          currentIndex := 0 } := by
  simp [step, h1, h2]

/-! ### Claims about the auto-capture sequencer -/

/-- Claim C2: from an accepted start (a source selected, not already
running), a complete run of the sequencer initiates exactly four
captures, one per timer tick, visiting the stations in the order front,
left, right, brake, and the tick after the fourth capture returns the
sequencer to idle by itself: timer cancelled, running flag false,
current station cleared. -/
theorem autoCapture_full_run (s0 : SysState)
    (h1 : s0.videoSource ≠ VideoSource.none) (h2 : s0.autoCapturing = false)
    (e1 e2 e3 e4 e5 : Block → Option String) :
    (step (step s0 Event.autoStart) (Event.autoTick e1)).autoCaptureCalls
      = s0.autoCaptureCalls ++ [Block.front] ∧
    (step (step s0 Event.autoStart) (Event.autoTick e1)).currentAutoStation
      = some Block.front ∧
    (step (step (step s0 Event.autoStart) (Event.autoTick e1))
        (Event.autoTick e2)).autoCaptureCalls
      = s0.autoCaptureCalls ++ [Block.front, Block.left] ∧
    (step (step (step s0 Event.autoStart) (Event.autoTick e1))
        (Event.autoTick e2)).currentAutoStation = some Block.left ∧
    (step (step (step (step s0 Event.autoStart) (Event.autoTick e1))
        (Event.autoTick e2)) (Event.autoTick e3)).autoCaptureCalls
      = s0.autoCaptureCalls ++ [Block.front, Block.left, Block.right] ∧
    (step (step (step (step s0 Event.autoStart) (Event.autoTick e1))
        (Event.autoTick e2)) (Event.autoTick e3)).currentAutoStation
      = some Block.right ∧
    (step (step (step (step (step s0 Event.autoStart) (Event.autoTick e1))
        (Event.autoTick e2)) (Event.autoTick e3)) (Event.autoTick e4)).autoCaptureCalls
      = s0.autoCaptureCalls ++ [Block.front, Block.left, Block.right, Block.brake] ∧
    (step (step (step (step (step s0 Event.autoStart) (Event.autoTick e1))
        (Event.autoTick e2)) (Event.autoTick e3)) (Event.autoTick e4)).currentAutoStation
      = some Block.brake ∧
    (step (step (step (step (step (step s0 Event.autoStart) (Event.autoTick e1))
        (Event.autoTick e2)) (Event.autoTick e3)) (Event.autoTick e4))
        (Event.autoTick e5)).autoCaptureCalls
      = s0.autoCaptureCalls ++ [Block.front, Block.left, Block.right, Block.brake] ∧
    (step (step (step (step (step (step s0 Event.autoStart) (Event.autoTick e1))
        (Event.autoTick e2)) (Event.autoTick e3)) (Event.autoTick e4))
        (Event.autoTick e5)).timerActive = false ∧
    (step (step (step (step (step (step s0 Event.autoStart) (Event.autoTick e1))
        (Event.autoTick e2)) (Event.autoTick e3)) (Event.autoTick e4))
        (Event.autoTick e5)).autoCapturing = false ∧
    (step (step (step (step (step (step s0 Event.autoStart) (Event.autoTick e1))
        (Event.autoTick e2)) (Event.autoTick e3)) (Event.autoTick e4))
        (Event.autoTick e5)).currentAutoStation = Option.none := by
  have hs1 := autoStart_accepted s0 h1 h2
  set s1 := step s0 Event.autoStart with hs1def
  have s1ta : s1.timerActive = true := by rw [hs1]
  have s1ci : s1.currentIndex = 0 := by rw [hs1]
  have s1calls : s1.autoCaptureCalls = s0.autoCaptureCalls := by rw [hs1]
  obtain ⟨t1calls, t1ci, t1ta, t1ac, t1cas, t1vs⟩ :=
    autoTick_capture s1 e1 s1ta (by rw [s1ci]; norm_num)
  set t1 := step s1 (Event.autoTick e1) with ht1def
  rw [s1ci] at t1calls t1ci t1cas
  rw [s1calls] at t1calls
  obtain ⟨t2calls, t2ci, t2ta, t2ac, t2cas, t2vs⟩ :=
    autoTick_capture t1 e2 t1ta (by rw [t1ci]; norm_num)
  set t2 := step t1 (Event.autoTick e2) with ht2def
  rw [t1ci] at t2calls t2ci t2cas
  rw [t1calls] at t2calls
  obtain ⟨t3calls, t3ci, t3ta, t3ac, t3cas, t3vs⟩ :=
    autoTick_capture t2 e3 t2ta (by rw [t2ci]; norm_num)
  set t3 := step t2 (Event.autoTick e3) with ht3def
  rw [t2ci] at t3calls t3ci t3cas
  rw [t2calls] at t3calls
  obtain ⟨t4calls, t4ci, t4ta, t4ac, t4cas, t4vs⟩ :=
    autoTick_capture t3 e4 t3ta (by rw [t3ci]; norm_num)
  set t4 := step t3 (Event.autoTick e4) with ht4def
  rw [t3ci] at t4calls t4ci t4cas
  rw [t3calls] at t4calls
  have hfin := autoTick_finish t4 e5 t4ta (by rw [t4ci]; norm_num)
  set t5 := step t4 (Event.autoTick e5) with ht5def
  have t5calls : t5.autoCaptureCalls = t4.autoCaptureCalls := by rw [hfin]
  have t5ta : t5.timerActive = false := by rw [hfin]
  have t5ac : t5.autoCapturing = false := by rw [hfin]
  have t5cas : t5.currentAutoStation = Option.none := by rw [hfin]
  refine ⟨?_, ?_, ?_, ?_, ?_, ?_, ?_, ?_, ?_, t5ta, t5ac, t5cas⟩
  · rw [t1calls]; simp [stationAt, stationOrder]
  · rw [t1cas]; simp [stationAt, stationOrder]
  · rw [t2calls]; simp [stationAt, stationOrder]
  · rw [t2cas]; simp [stationAt, stationOrder]
  · rw [t3calls]; simp [stationAt, stationOrder]
  · rw [t3cas]; simp [stationAt, stationOrder]
  · rw [t4calls]; simp [stationAt, stationOrder]
  · rw [t4cas]; simp [stationAt, stationOrder]
  · rw [t5calls, t4calls]; simp [stationAt, stationOrder]

/-- A concrete accepted-start state for the sequencer claims: the
operator has selected the remote pi feed. -/
def c2s0 : SysState := step initState (Event.selectSource VideoSource.pi)

theorem autoCapture_full_run_witness :
    (step (step (step (step (step (step c2s0 Event.autoStart)
        (Event.autoTick (fun _ => Option.none))) (Event.autoTick (fun _ => Option.none)))
        (Event.autoTick (fun _ => Option.none))) (Event.autoTick (fun _ => Option.none)))
        (Event.autoTick (fun _ => Option.none))).autoCaptureCalls
      = c2s0.autoCaptureCalls ++ [Block.front, Block.left, Block.right, Block.brake] :=
  (autoCapture_full_run c2s0 (by decide) (by decide)
    (fun _ => Option.none) (fun _ => Option.none) (fun _ => Option.none)
    (fun _ => Option.none) (fun _ => Option.none)).2.2.2.2.2.2.2.2.1

/-- A concrete accepted-start state used for claim C5. -/
def c5s0 : SysState := step initState (Event.selectSource VideoSource.pi)

/-- Claim C5 as stated is false on the code: from a concrete accepted
start (pi feed selected, sequencer idle), the start operation invokes
no capture at all at start time - no station is marked busy, no
analysis request is issued and the sequencer has invoked
captureFromFeed on no station; it only marks front as the current
station and arms the timer. -/
theorem autoStart_no_immediate_capture :
    c5s0.videoSource ≠ VideoSource.none ∧ c5s0.autoCapturing = false ∧
    (step c5s0 Event.autoStart).autoCaptureCalls = [] ∧
    (step c5s0 Event.autoStart).outCap Block.front = 0 ∧
    (step c5s0 Event.autoStart).outUp Block.front = 0 ∧
    (step c5s0 Event.autoStart).blocks Block.front = emptyBlockState ∧
    (step c5s0 Event.autoStart).timerActive = true ∧
    (step c5s0 Event.autoStart).currentAutoStation = some Block.front := by
  decide

/-- Claim C5 amended: when the start operation is accepted it does NOT
capture immediately; it only sets the running flag, marks front as the
current station and arms the timer, leaving every slot and every
in-flight-request counter unchanged.  The first capture of front is
invoked by the first fixed-interval tick, 2 seconds after start. -/
theorem autoStart_defers_first_capture (s0 : SysState)
    (h1 : s0.videoSource ≠ VideoSource.none) (h2 : s0.autoCapturing = false) :
    (step s0 Event.autoStart).blocks = s0.blocks ∧
    (step s0 Event.autoStart).outCap = s0.outCap ∧
    (step s0 Event.autoStart).outUp = s0.outUp ∧
    (step s0 Event.autoStart).autoCaptureCalls = s0.autoCaptureCalls ∧
    (step s0 Event.autoStart).autoCapturing = true ∧
    (step s0 Event.autoStart).currentAutoStation = some Block.front ∧
    (step s0 Event.autoStart).timerActive = true ∧
    (step s0 Event.autoStart).currentIndex = 0 ∧
    ∀ env : Block → Option String,
      (step (step s0 Event.autoStart) (Event.autoTick env)).autoCaptureCalls
        = s0.autoCaptureCalls ++ [Block.front] := by
  have hs1 := autoStart_accepted s0 h1 h2
  refine ⟨by rw [hs1], by rw [hs1], by rw [hs1], by rw [hs1], by rw [hs1],
    by rw [hs1], by rw [hs1], by rw [hs1], ?_⟩
  intro env
  obtain ⟨tc, _, _, _, _, _⟩ :=
    autoTick_capture (step s0 Event.autoStart) env (by rw [hs1]) (by rw [hs1]; norm_num)
  have hci : (step s0 Event.autoStart).currentIndex = 0 := by rw [hs1]
  have hcalls : (step s0 Event.autoStart).autoCaptureCalls = s0.autoCaptureCalls := by
    rw [hs1]
  rw [tc, hci, hcalls]
  simp [stationAt, stationOrder]

theorem autoStart_defers_first_capture_witness :
    (step (step c5s0 Event.autoStart)
        (Event.autoTick (fun _ => Option.none))).autoCaptureCalls
      = c5s0.autoCaptureCalls ++ [Block.front] :=
  (autoStart_defers_first_capture c5s0 (by decide) (by decide)).2.2.2.2.2.2.2.2
    (fun _ => Option.none)

/-! ### Claim C3: a response without annotatedImage -/

/-- A 200 analysis response whose body omits annotatedImage. -/
def respNoAnn : AnalyzeResponse :=
  { annotatedImage := Option.none
    scratchCount := some 1
    dentCount := some 0
    crackCount := some 0 }

/-- A poll result delivering a frame to every station. -/
def c3poll : Block → Option (String × Option ℚ) := fun _ => some ("F", Option.none)

def c3s1 : SysState := step initState (Event.selectSource VideoSource.pi)

def c3s2 : SysState := step c3s1 (Event.piPoll c3poll Option.none Option.none 0)

/-- State with a capture of the front station in flight. -/
def c3s3 : SysState := step c3s2 (Event.clickCapture Block.front Option.none)

/-- State after that capture's analysis response arrives without an
annotatedImage field. -/
def c3s4 : SysState :=
  step c3s3 (Event.captureResponse Block.front (AnalyzeOutcome.success respNoAnn))

/-- Claim C3 evaluated on the code at the failing input: before the
response the front slot has no afterImage and an empty result; the
captureFromFeed handler stores the response without checking
annotatedImage, so afterImage becomes the garbage data URL built from
the undefined base64 payload and the result counts are overwritten -
the slot does NOT revert to its pre-capture appearance.  The upload
handler on the very same response throws and only clears the busy
flag, which is the behaviour the claim describes. -/
theorem captureMissingAnnotated_mutates_slot :
    (c3s3.blocks Block.front).loading = true ∧
    (c3s3.blocks Block.front).afterImage = Option.none ∧
    (c3s3.blocks Block.front).analysisResult = {} ∧
    (c3s4.blocks Block.front).loading = false ∧
    (c3s4.blocks Block.front).afterImage = some "data:image/jpeg;base64,undefined" ∧
    (c3s4.blocks Block.front).analysisResult.scratches = some 1 ∧
    uploadCompleteBlock (AnalyzeOutcome.success respNoAnn) (c3s3.blocks Block.front)
      = { c3s3.blocks Block.front with loading := false } := by
  decide

/-! ### Claim C6: remote-feed capture with no station frame -/

/-- A poll tick on which no station delivered a frame but the legacy
single-camera endpoint delivered an annotated image. -/
def c6s1 : SysState := step initState (Event.selectSource VideoSource.pi)

def c6s2 : SysState :=
  step c6s1 (Event.piPoll (fun _ => Option.none) (some "LEG") Option.none 0)

def c6s3 : SysState := step c6s2 (Event.clickCapture Block.front Option.none)

/-- Claim C6 as stated is false on the code: with the pi source active
and NO frame cached for the front station, a capture of front does not
fail - it silently substitutes the shared legacy feed image and starts
an analysis request with it. -/
theorem piCapture_substitutes_shared_feed :
    c6s2.videoSource = VideoSource.pi ∧
    c6s2.stationPiFeeds Block.front = Option.none ∧
    c6s2.piImage = some "data:image/jpeg;base64,LEG" ∧
    (c6s3.blocks Block.front).loading = true ∧
    (c6s3.blocks Block.front).beforeImage = some "data:image/jpeg;base64,LEG" ∧
    c6s3.outCap Block.front = 1 := by
  decide

/-- Claim C6 amended: in remote-feed mode a station with no cached
frame falls back to the shared legacy images (raw first, then
annotated); only when the station frame and both legacy images are all
absent does the capture fail, alert and store nothing in the slot. -/
theorem piCapture_fallback (s : SysState) (b : Block) (env : Option String)
    (hs : s.videoSource = VideoSource.pi) (hf : s.stationPiFeeds b = Option.none) :
    (s.piRawImage = Option.none → s.piImage = Option.none →
      step s (Event.clickCapture b env) = s) ∧
    (∀ r, s.piRawImage = some r → (s.blocks b).afterImage = Option.none →
      (step s (Event.clickCapture b env)).blocks b
        = captureStartBlock r (s.blocks b) ∧
      (step s (Event.clickCapture b env)).outCap b = s.outCap b + 1) := by
  constructor
  · intro h1 h2
    by_cases ha : (s.blocks b).afterImage = Option.none
    · simp [step, ha, isLive, hs, captureFromFeed, trySourceImage, hf, h1, h2,
        Option.orElse]
    · simp [step, ha]
  · intro r hr ha
    have ht : trySourceImage s b env = some r := by
      simp [trySourceImage, hs, hf, hr, Option.orElse]
    simp [step, ha, isLive, hs, captureFromFeed, ht, Function.update_same]

/-- State for the fallback witness: no station frames, but the legacy
endpoint delivered both an annotated and a clean image, so the shared
raw image is cached. -/
def c6w2 : SysState :=
  step (step initState (Event.selectSource VideoSource.pi))
    (Event.piPoll (fun _ => Option.none) (some "A") (some "C") 0)

theorem piCapture_fallback_witness :
    (step c6w2 (Event.clickCapture Block.front Option.none)).blocks Block.front
      = captureStartBlock "data:image/jpeg;base64,C" (c6w2.blocks Block.front) ∧
    (step c6w2 (Event.clickCapture Block.front Option.none)).outCap Block.front
      = c6w2.outCap Block.front + 1 :=
  (piCapture_fallback c6w2 Block.front Option.none (by decide) (by decide)).2
    "data:image/jpeg;base64,C" (by decide) (by decide)

/-! ### Claim C8: reset clears only the target station -/

/-- Claim C8: for every state (hence every video source) and every
station, the reset operation returns that station's slot to the empty
slot value (no images, not busy, empty result) and leaves the other
three stations' slots and the video source unchanged. -/
theorem resetBlock_clears_only_target (s : SysState) (b : Block) :
    (step s (Event.reset b)).blocks b = emptyBlockState ∧
    (∀ b2, b2 ≠ b → (step s (Event.reset b)).blocks b2 = s.blocks b2) ∧
    (step s (Event.reset b)).videoSource = s.videoSource := by
  refine ⟨?_, ?_, rfl⟩
  · simp [step, Function.update_same]
  · intro b2 hb
    simp [step, Function.update_noteq hb]

/-- A state with uploads pending on the front and left stations. -/
def c8s : SysState :=
  step (step initState (Event.clickUpload Block.front "A"))
    (Event.clickUpload Block.left "B")

theorem resetBlock_clears_only_target_witness :
    (step c8s (Event.reset Block.front)).blocks Block.front = emptyBlockState ∧
    (step c8s (Event.reset Block.front)).blocks Block.left = c8s.blocks Block.left :=
  ⟨(resetBlock_clears_only_target c8s Block.front).1,
   (resetBlock_clears_only_target c8s Block.front).2.1 Block.left (by decide)⟩

/-! ### Claim C9: only reset clears a slot -/

theorem captureFromFeed_keeps_images (s : SysState) (b2 : Block)
    (env : Option String) (b : Block) :
    ((s.blocks b).beforeImage ≠ Option.none →
      ((captureFromFeed s b2 env).blocks b).beforeImage ≠ Option.none) ∧
    ((s.blocks b).afterImage ≠ Option.none →
      ((captureFromFeed s b2 env).blocks b).afterImage ≠ Option.none) := by
  cases h : trySourceImage s b2 env with
  | none => simp [captureFromFeed, h]
  | some img =>
      by_cases hb : b = b2
      · subst hb
        simp [captureFromFeed, h, Function.update_same, captureStartBlock]
      · simp [captureFromFeed, h, Function.update_noteq hb]

theorem captureCompleteBlock_images (o : AnalyzeOutcome) (st : BlockState) :
    (captureCompleteBlock o st).beforeImage = st.beforeImage ∧
    ((captureCompleteBlock o st).afterImage = st.afterImage ∨
      ∃ u, (captureCompleteBlock o st).afterImage = some u) := by
  cases o with
  | failure => exact ⟨rfl, Or.inl rfl⟩
  | success r => exact ⟨rfl, Or.inr ⟨annotatedUrl r, rfl⟩⟩

theorem uploadCompleteBlock_images (o : AnalyzeOutcome) (st : BlockState) :
    (uploadCompleteBlock o st).beforeImage = st.beforeImage ∧
    ((uploadCompleteBlock o st).afterImage = st.afterImage ∨
      ∃ u, (uploadCompleteBlock o st).afterImage = some u) := by
  cases o with
  | failure => exact ⟨rfl, Or.inl rfl⟩
  | success r =>
      by_cases hf : strFalsy r.annotatedImage = true
      · simp [uploadCompleteBlock, hf]
      · simp [uploadCompleteBlock, hf]

theorem completeBlock_keeps_images
    (f : AnalyzeOutcome → BlockState → BlockState)
    (hf : ∀ o st, (f o st).beforeImage = st.beforeImage ∧
      ((f o st).afterImage = st.afterImage ∨ ∃ u, (f o st).afterImage = some u))
    (s : SysState) (b2 : Block) (o : AnalyzeOutcome) (b : Block) :
    ((s.blocks b).beforeImage ≠ Option.none →
      ((Function.update s.blocks b2 (f o (s.blocks b2)) b).beforeImage ≠ Option.none)) ∧
    ((s.blocks b).afterImage ≠ Option.none →
      ((Function.update s.blocks b2 (f o (s.blocks b2)) b).afterImage ≠ Option.none)) := by
  by_cases hb : b = b2
  · subst hb
    obtain ⟨hbef, haft⟩ := hf o (s.blocks b)
    rw [Function.update_same, hbef]
    refine ⟨id, ?_⟩
    intro h
    rcases haft with heq | ⟨u, hu⟩
    · rw [heq]; exact h
    · rw [hu]; simp
  · rw [Function.update_noteq hb]
    exact ⟨id, id⟩

/-- Claim C9: changing the video source via the selector leaves all
four stations' slots untouched; the master clear action also leaves
the slots untouched while it forces the source back to none, cancels
the sequencer and drops the two shared remote-feed images; and no
event other than the per-station reset ever removes a stored
beforeImage or afterImage from a slot. -/
theorem sourceChange_preserves_slots :
    (∀ (s : SysState) (v : VideoSource),
      (step s (Event.selectSource v)).blocks = s.blocks) ∧
    (∀ s : SysState,
      (step s Event.clearButton).blocks = s.blocks ∧
      (s.videoSource ≠ VideoSource.none →
        (step s Event.clearButton).videoSource = VideoSource.none ∧
        (step s Event.clearButton).piImage = Option.none ∧
        (step s Event.clearButton).piRawImage = Option.none ∧
        (step s Event.clearButton).autoCapturing = false ∧
        (step s Event.clearButton).timerActive = false ∧
        (step s Event.clearButton).currentAutoStation = Option.none)) ∧
    (∀ (s : SysState) (e : Event) (b : Block), e ≠ Event.reset b →
      ((s.blocks b).beforeImage ≠ Option.none →
        ((step s e).blocks b).beforeImage ≠ Option.none) ∧
      ((s.blocks b).afterImage ≠ Option.none →
        ((step s e).blocks b).afterImage ≠ Option.none)) := by
  refine ⟨?_, ?_, ?_⟩
  · intro s v
    simp only [step]
    split_ifs <;> rfl
  · intro s
    by_cases h : s.videoSource = VideoSource.none
    · exact ⟨by simp [step, h], fun hn => absurd h hn⟩
    · refine ⟨by simp [step, h], fun _ => ?_⟩
      simp [step, h]
  · intro s e b hne
    cases e with
    | selectSource v =>
        have hb : (step s (Event.selectSource v)).blocks = s.blocks := by
          simp only [step]; split_ifs <;> rfl
        rw [hb]; exact ⟨id, id⟩
    | clearButton =>
        have hb : (step s Event.clearButton).blocks = s.blocks := by
          simp only [step]; split_ifs <;> rfl
        rw [hb]; exact ⟨id, id⟩
    | webcamReady b2 =>
        have hb : (step s (Event.webcamReady b2)).blocks = s.blocks := by
          simp only [step]; split_ifs <;> rfl
        rw [hb]; exact ⟨id, id⟩
    | piPoll poll la lc cur =>
        have hb : (step s (Event.piPoll poll la lc cur)).blocks = s.blocks := by
          simp only [step]; split_ifs <;> rfl
        rw [hb]; exact ⟨id, id⟩
    | autoStart =>
        have hb : (step s Event.autoStart).blocks = s.blocks := by
          simp only [step]; split_ifs <;> rfl
        rw [hb]; exact ⟨id, id⟩
    | clickCapture b2 env =>
        simp only [step]
        split_ifs with hg
        · exact captureFromFeed_keeps_images s b2 env b
        · exact ⟨id, id⟩
    | autoTick env =>
        simp only [step]
        split_ifs with h1 h2
        · exact captureFromFeed_keeps_images
            { s with
              currentAutoStation := some (stationAt s.currentIndex)
              autoCaptureCalls := s.autoCaptureCalls ++ [stationAt s.currentIndex] }
            (stationAt s.currentIndex) (env (stationAt s.currentIndex)) b
        · exact ⟨id, id⟩
        · exact ⟨id, id⟩
    | captureResponse b2 o =>
        simp only [step]
        split_ifs with hg
        · exact completeBlock_keeps_images captureCompleteBlock
            captureCompleteBlock_images s b2 o b
        · exact ⟨id, id⟩
    | clickUpload b2 img =>
        simp only [step]
        split_ifs with hg
        · by_cases hb : b = b2
          · subst hb
            simp [Function.update_same, captureStartBlock]
          · simp [Function.update_noteq hb]
        · exact ⟨id, id⟩
    | uploadResponse b2 o =>
        simp only [step]
        split_ifs with hg
        · exact completeBlock_keeps_images uploadCompleteBlock
            uploadCompleteBlock_images s b2 o b
        · exact ⟨id, id⟩
    | reset b2 =>
        have hbb : b2 ≠ b := by
          intro h
          exact hne (by rw [h])
        simp only [step]
        rw [Function.update_noteq (Ne.symm hbb)]
        exact ⟨id, id⟩

/-! ### Claim C7: remote-feed connectivity flag -/

/-- Claim C7: on every poll tick in pi mode the recomputed connectivity
flag of a station is true exactly when the station's fetched frame
carries a (positive epoch-seconds) timestamp less than 3 seconds older
than the current time; the recomputation depends only on the poll
inputs, never on the connectivity state of a prior tick; and at the
concrete boundary inputs a frame 2.9 seconds old is connected while a
frame 3.1 seconds old is disconnected. -/
theorem remoteConnectivity_flag :
    (∀ (s : SysState) (poll : Block → Option (String × Option ℚ))
        (la lc : Option String) (cur : ℚ) (b : Block),
      s.videoSource = VideoSource.pi →
      (∀ t, pollTimestamps poll b = some t → 0 < t) →
      (((step s (Event.piPoll poll la lc cur)).connStatus b).connected = true ↔
        ∃ t, pollTimestamps poll b = some t ∧ cur - t < 3)) ∧
    (∀ (s1 s2 : SysState) (poll : Block → Option (String × Option ℚ))
        (la lc : Option String) (cur : ℚ),
      s1.videoSource = VideoSource.pi → s2.videoSource = VideoSource.pi →
      (step s1 (Event.piPoll poll la lc cur)).connStatus
        = (step s2 (Event.piPoll poll la lc cur)).connStatus) ∧
    (connStatusOf 100 (fun _ => some (97.1 : ℚ)) Block.front).connected = true ∧
    (connStatusOf 100 (fun _ => some (96.9 : ℚ)) Block.front).connected = false := by
  refine ⟨?_, ?_, ?_, ?_⟩
  · intro s poll la lc cur b hs hpos
    simp only [step, hs, if_pos]
    cases h : pollTimestamps poll b with
    | none => simp [connStatusOf, h]
    | some t =>
        have ht0 : t ≠ 0 := ne_of_gt (hpos t h)
        by_cases hlt : cur - t < 3
        · simp [connStatusOf, h, ht0, hlt]
        · simp [connStatusOf, h, ht0, hlt]
  · intro s1 s2 poll la lc cur h1 h2
    simp [step, h1, h2]
  · norm_num [connStatusOf]
  · norm_num [connStatusOf]

/-- The poll input for the connectivity witness: every station delivers
a frame stamped at 97 seconds. -/
def c7poll : Block → Option (String × Option ℚ) := fun _ => some ("F", some 97)

/-- The state for the connectivity witness: pi source selected. -/
def c7s : SysState := step initState (Event.selectSource VideoSource.pi)

theorem remoteConnectivity_flag_witness :
    ((step c7s (Event.piPoll c7poll Option.none Option.none 99)).connStatus
        Block.front).connected = true ↔
      ∃ t, pollTimestamps c7poll Block.front = some t ∧ (99 : ℚ) - t < 3 :=
  remoteConnectivity_flag.1 c7s c7poll Option.none Option.none 99 Block.front
    (by decide)
    (by
      intro t ht
      simp [pollTimestamps, c7poll] at ht
      subst ht
      norm_num)

/-! ### Claim C4: captures outstanding per station -/

/-- The busy flag only rises together with an in-flight request. -/
def InvBusy (s : SysState) : Prop :=
  ∀ b, (s.blocks b).loading = true → 1 ≤ s.outCap b + s.outUp b

theorem captureCompleteBlock_loading (o : AnalyzeOutcome) (st : BlockState) :
    (captureCompleteBlock o st).loading = false := by
  cases o <;> rfl

theorem uploadCompleteBlock_loading (o : AnalyzeOutcome) (st : BlockState) :
    (uploadCompleteBlock o st).loading = false := by
  cases o with
  | failure => rfl
  | success r =>
      by_cases hf : strFalsy r.annotatedImage = true <;> simp [uploadCompleteBlock, hf]

theorem invBusy_captureFromFeed (s : SysState) (hs : InvBusy s) (b2 : Block)
    (env : Option String) : InvBusy (captureFromFeed s b2 env) := by
  intro b hl
  cases h : trySourceImage s b2 env with
  | none =>
      simp only [captureFromFeed, h] at hl ⊢
      exact hs b hl
  | some img =>
      simp only [captureFromFeed, h] at hl ⊢
      by_cases hb : b = b2
      · subst hb
        simp only [Function.update_same]
        omega
      · simp only [Function.update_noteq hb] at hl ⊢
        exact hs b hl

theorem invBusy_step (s : SysState) (hs : InvBusy s) (e : Event) :
    InvBusy (step s e) := by
  cases e with
  | selectSource v =>
      intro b hl
      simp only [step] at hl ⊢
      split_ifs at hl ⊢ <;> exact hs b hl
  | clearButton =>
      intro b hl
      simp only [step] at hl ⊢
      split_ifs at hl ⊢ <;> exact hs b hl
  | webcamReady b2 =>
      intro b hl
      simp only [step] at hl ⊢
      split_ifs at hl ⊢ <;> exact hs b hl
  | piPoll poll la lc cur =>
      intro b hl
      simp only [step] at hl ⊢
      split_ifs at hl ⊢ <;> exact hs b hl
  | autoStart =>
      intro b hl
      simp only [step] at hl ⊢
      split_ifs at hl ⊢ <;> exact hs b hl
  | clickCapture b2 env =>
      intro b hl
      simp only [step] at hl ⊢
      split_ifs at hl ⊢ with hg
      · exact invBusy_captureFromFeed s hs b2 env b hl
      · exact hs b hl
  | autoTick env =>
      intro b hl
      simp only [step] at hl ⊢
      split_ifs at hl ⊢ with h1 h2
      · exact invBusy_captureFromFeed
          { s with
            currentAutoStation := some (stationAt s.currentIndex)
            autoCaptureCalls := s.autoCaptureCalls ++ [stationAt s.currentIndex] }
          (fun b3 h => hs b3 h) (stationAt s.currentIndex)
          (env (stationAt s.currentIndex)) b hl
      · exact hs b hl
      · exact hs b hl
  | captureResponse b2 o =>
      intro b hl
      simp only [step] at hl ⊢
      split_ifs at hl ⊢ with hg
      · by_cases hb : b = b2
        · subst hb
          simp [Function.update_same, captureCompleteBlock_loading] at hl
        · simp only [Function.update_noteq hb] at hl ⊢
          exact hs b hl
      · exact hs b hl
  | clickUpload b2 img =>
      intro b hl
      simp only [step] at hl ⊢
      split_ifs at hl ⊢ with hg
      · by_cases hb : b = b2
        · subst hb
          simp only [Function.update_same]
          omega
        · simp only [Function.update_noteq hb] at hl ⊢
          exact hs b hl
      · exact hs b hl
  | uploadResponse b2 o =>
      intro b hl
      simp only [step] at hl ⊢
      split_ifs at hl ⊢ with hg
      · by_cases hb : b = b2
        · subst hb
          simp [Function.update_same, uploadCompleteBlock_loading] at hl
        · simp only [Function.update_noteq hb] at hl ⊢
          exact hs b hl
      · exact hs b hl
  | reset b2 =>
      intro b hl
      simp only [step] at hl ⊢
      by_cases hb : b = b2
      · subst hb
        simp [Function.update_same, emptyBlockState] at hl
      · simp only [Function.update_noteq hb] at hl
        exact hs b hl

theorem invBusy_runTrace (es : List Event) : InvBusy (runTrace es) := by
  have h : ∀ (l : List Event) (s : SysState), InvBusy s → InvBusy (l.foldl step s) := by
    intro l
    induction l with
    | nil => intro s hs; exact hs
    | cons e l ih => intro s hs; exact ih (step s e) (invBusy_step s hs e)
  refine h es initState ?_
  intro b hl
  simp [initState] at hl

/-- The poll input used by the claim C4 states: every station has a
frame available, so captures start unconditionally. -/
def c4poll : Block → Option (String × Option ℚ) := fun _ => some ("F", Option.none)

def c4s1 : SysState := step initState (Event.selectSource VideoSource.pi)

def c4s2 : SysState := step c4s1 (Event.piPoll c4poll Option.none Option.none 0)

/-- A reachable state with one capture of front outstanding. -/
def c4s3 : SysState := step c4s2 (Event.clickCapture Block.front Option.none)

/-- The state after clicking capture on front AGAIN while the first
capture is still awaiting its response. -/
def c4s4 : SysState := step c4s3 (Event.clickCapture Block.front Option.none)

/-- Claim C4 as stated is false on the code: in the reachable state
with the front slot busy and one analysis request outstanding, a second
press of the capture button on the very same station is accepted
(nothing checks the busy flag) and a second analysis request is issued,
so two captures are outstanding on one station at once. -/
theorem doubleCapture_same_station :
    (c4s3.blocks Block.front).loading = true ∧
    c4s3.outCap Block.front + c4s3.outUp Block.front = 1 ∧
    (c4s4.blocks Block.front).loading = true ∧
    c4s4.outCap Block.front + c4s4.outUp Block.front = 2 ∧
    Reachable c4s4 := by
  refine ⟨by decide, by decide, by decide, by decide, ?_⟩
  exact ⟨[Event.selectSource VideoSource.pi,
    Event.piPoll c4poll Option.none Option.none 0,
    Event.clickCapture Block.front Option.none,
    Event.clickCapture Block.front Option.none], rfl⟩

/-- Claim C4 amended: in every reachable state a busy slot has AT LEAST
one capture outstanding on that station - but not at most one: no
operation checks the busy flag before starting a capture, so a second
manual capture or upload can join a pending one on the same station. -/
theorem busy_implies_outstanding (s : SysState) (hr : Reachable s) (b : Block)
    (hl : (s.blocks b).loading = true) : 1 ≤ s.outCap b + s.outUp b := by
  obtain ⟨es, heq⟩ := hr
  subst heq
  exact invBusy_runTrace es b hl

theorem busy_implies_outstanding_witness :
    1 ≤ c4s3.outCap Block.front + c4s3.outUp Block.front :=
  busy_implies_outstanding c4s3
    ⟨[Event.selectSource VideoSource.pi,
      Event.piPoll c4poll Option.none Option.none 0,
      Event.clickCapture Block.front Option.none], rfl⟩
    Block.front (by decide)

/-- A state for the C9 witness with the pi source selected. -/
def c9s : SysState := step initState (Event.selectSource VideoSource.pi)

theorem sourceChange_preserves_slots_witness :
    (step c9s (Event.selectSource VideoSource.webcam)).blocks = c9s.blocks ∧
    (step c9s Event.clearButton).blocks = c9s.blocks ∧
    (step c9s Event.clearButton).videoSource = VideoSource.none ∧
    ((c9s.blocks Block.front).beforeImage ≠ Option.none →
      ((step c9s Event.clearButton).blocks Block.front).beforeImage ≠ Option.none) :=
  ⟨sourceChange_preserves_slots.1 c9s VideoSource.webcam,
   (sourceChange_preserves_slots.2.1 c9s).1,
   ((sourceChange_preserves_slots.2.1 c9s).2 (by decide)).1,
   (sourceChange_preserves_slots.2.2 c9s Event.clearButton Block.front
      (by intro h; exact Event.noConfusion h)).1⟩

end AutoService
